import Mathlib

/-!
Verification of the WebNexaAI landing page (src/App.tsx) against its
natural-language specification.

The page is a React single-file application.  The stateful logic is shallowly
embedded here as explicit state types plus step functions over event lists:

* `FadeState`/`fadeStep` embed the `FadeIn` component (App.tsx lines 73-100):
  a `useState(false)` visibility flag driven by an `IntersectionObserver`
  callback that sets the flag and unobserves on the first intersecting entry.
* `ThemeState`/`themeStep` embed the `useTheme` hook (App.tsx lines 103-130):
  the in-memory theme string, the `localStorage` entry under the key
  `theme`, and the root `dark` class, with the mount effect (load) and
  `toggleTheme` as events.
* `HeaderState`/`headerStep` embed the `Header` component (App.tsx lines
  149-230): the `isScrolled` flag set by the scroll handler
  (`window.scrollY > 10`) and the mobile-overlay `isOpen` flag.
* `Service`/`servicesData` embed the literal `services` array of the
  `Services` component (App.tsx lines 359-378) and its rendering of
  `service.features.slice(0, 2)` (line 415).

The FAQ accordion and the CTA form described by the specification are not
present in src/App.tsx; they are modelled from the spec, as marked on their
definitions.
-/

/-! ## FadeIn visibility animator (App.tsx lines 73-100) -/

/-- State of one mounted `FadeIn` component: the `isVisible` `useState` flag
and whether the `IntersectionObserver` is still observing the element
(observation starts at mount and is cancelled by `observer.unobserve` in the
callback). -/
structure FadeState where
  isVisible : Bool
  observing : Bool
  deriving DecidableEq, Repr

/-- Mount-time state: `useState(false)` and `observer.observe(ref.current)`. -/
def fadeInit : FadeState := { isVisible := false, observing := true }

/-- One delivery of an intersection entry to the observer callback.  The
callback only runs while the element is observed; on `entry.isIntersecting`
it runs `setIsVisible(true)` and `observer.unobserve(entry.target)`. -/
def fadeStep (s : FadeState) (isIntersecting : Bool) : FadeState :=
  if s.observing && isIntersecting then
    { isVisible := true, observing := false }
  else
    s

/-- The state after a sequence of intersection events, starting from mount. -/
def fadeRun (es : List Bool) : FadeState :=
  es.foldl fadeStep fadeInit

lemma fadeStep_frozen (s : FadeState) (b : Bool) (h : s.observing = false) :
    fadeStep s b = s := by
  simp [fadeStep, h]

lemma fadeFold_frozen (es : List Bool) :
    ∀ s : FadeState, s.observing = false → es.foldl fadeStep s = s := by
  induction es with
  | nil => intro s _; rfl
  | cons b rest ih =>
    intro s h
    rw [List.foldl_cons, fadeStep_frozen s b h]
    exact ih s h

lemma fadeFold_inv (es : List Bool) :
    ∀ s : FadeState, (s.isVisible = true → s.observing = false) →
      ((es.foldl fadeStep s).isVisible = true →
        (es.foldl fadeStep s).observing = false) := by
  induction es with
  | nil => intro s h; exact h
  | cons b rest ih =>
    intro s h
    rw [List.foldl_cons]
    apply ih
    unfold fadeStep
    split
    · intro _; rfl
    · exact h

lemma fadeRun_visible_iff (es : List Bool) :
    (fadeRun es).isVisible = true ↔ es.contains true := by
  induction es with
  | nil => simp [fadeRun, fadeInit]
  | cons b rest ih =>
    cases b with
    | true =>
      have h1 : fadeStep fadeInit true = FadeState.mk true false := rfl
      have h2 := fadeFold_frozen rest (FadeState.mk true false) rfl
      simp [fadeRun, List.foldl_cons, h1, h2]
    | false =>
      have h1 : fadeStep fadeInit false = fadeInit := rfl
      simp only [fadeRun, List.foldl_cons, h1] at ih ⊢
      rw [ih]
      simp

/-- C1: the visibility signal of a `FadeIn` element starts false; whenever it
is true the observation has been cancelled and it remains true under any
further intersection events; and it is true exactly when some delivered entry
was intersecting, so it transitions to true at most once (at the first
intersecting entry) and never returns to false. -/
theorem fadeIn_visibility_one_shot (es tail : List Bool) :
    (fadeRun []).isVisible = false ∧
    ((fadeRun es).isVisible = true →
      (fadeRun es).observing = false ∧ (fadeRun (es ++ tail)).isVisible = true) ∧
    ((fadeRun es).isVisible = true ↔ es.contains true) := by
  refine ⟨rfl, ?_, fadeRun_visible_iff es⟩
  intro hv
  have hobs : (fadeRun es).observing = false := by
    have := fadeFold_inv es fadeInit (by intro h; cases h)
    exact this hv
  constructor
  · exact hobs
  · have : fadeRun (es ++ tail) = fadeRun es := by
      unfold fadeRun
      rw [List.foldl_append]
      exact fadeFold_frozen tail _ hobs
    rw [this]; exact hv

/-- Witness for `fadeIn_visibility_one_shot` at the concrete trace
`[true]` extended by `[false]`. -/
theorem fadeIn_visibility_one_shot_witness :
    (fadeRun [true]).isVisible = true ∧
    (fadeRun [true]).observing = false ∧
    (fadeRun ([true] ++ [false])).isVisible = true := by
  have h := fadeIn_visibility_one_shot [true] [false]
  have hv : (fadeRun [true]).isVisible = true := h.2.2.mpr (by decide)
  exact ⟨hv, (h.2.1 hv).1, (h.2.1 hv).2⟩

/-! ## FadeIn without platform intersection-observation capability

The effect body of `FadeIn` (App.tsx lines 77-89) calls
`new IntersectionObserver(...)` unconditionally: there is no capability
check and no fallback branch.  On a platform without the constructor the
effect throws a `ReferenceError` and `isVisible` keeps its initial value
`false`, so the element keeps the `opacity-0 translate-y-12` class. -/

/-- Result of running the mount effect of `FadeIn`, parametrised by whether
the platform provides the `IntersectionObserver` constructor.  The code has
no guard, so the unsupported case is the thrown `ReferenceError`. -/
def fadeMount (observerSupported : Bool) : Except String FadeState :=
  if observerSupported then Except.ok fadeInit
  else Except.error "ReferenceError: IntersectionObserver is not defined"

/-- The value of the `isVisible` flag when the platform lacks the observer:
the effect fails before any `setIsVisible` call, so the flag keeps the value
it was created with. -/
def fadeVisibleWithoutSupport : Bool :=
  match fadeMount false with
  | Except.ok st => st.isVisible
  | Except.error _ => fadeInit.isVisible

/-- C4 counterexample: the claim that absent intersection-observation
capability every animated element is immediately visible is false — with the
observer unsupported the visibility flag is not true. -/
theorem fadeIn_unsupported_claim_false :
    ¬ (fadeVisibleWithoutSupport = true) := by
  decide

/-- C4 amended: when the platform does not provide intersection-observation
capability, the `FadeIn` mount effect raises an error (the constructor is
called with no capability check), and the visibility signal remains false, so
animated content stays hidden rather than defaulting to visible. -/
theorem fadeIn_unsupported_stays_hidden :
    fadeMount false =
      Except.error "ReferenceError: IntersectionObserver is not defined" ∧
    fadeVisibleWithoutSupport = false :=
  ⟨rfl, rfl⟩

/-! ## Theme controller (App.tsx lines 103-130)

`useTheme` keeps `theme : 'light' | 'dark'` in a `useState('light')`; the
runtime value read back from `localStorage.getItem('theme')` is an arbitrary
string or `null` (the TypeScript cast does not narrow it at runtime), so the
embedding uses `String`.  The mount effect uses JavaScript truthiness on the
read value (`if (savedTheme)`), so an empty stored string falls through to
the `matchMedia` branch.  `window.matchMedia('(prefers-color-scheme: dark)')`
is modelled by an `Option Bool`: `none` when the platform provides no
preference signal, in which case `matches` reads as `false`. -/

/-- The `matches` field of the media query: `false` when no platform
color-scheme signal is available. -/
def matchMediaDarkMatches (platformDark : Option Bool) : Bool :=
  platformDark.getD false

/-- The theme resolved by the mount effect of `useTheme`: a truthy stored
value is used as-is; otherwise the media-query result picks `dark` or
`light`. -/
def resolveInitialTheme (stored : Option String) (platformDark : Option Bool) :
    String :=
  match stored with
  | some saved =>
    if saved = "" then
      if matchMediaDarkMatches platformDark then "dark" else "light"
    else saved
  | none =>
    if matchMediaDarkMatches platformDark then "dark" else "light"

/-- State of the theme controller: the in-memory `theme` value, the
`localStorage` entry under the fixed key `theme` (`none` when the key is
absent), and whether the root element carries the `dark` class. -/
structure ThemeState where
  theme : String
  storage : Option String
  domDark : Bool
  deriving DecidableEq, Repr

/-- Events acting on the theme controller: a component mount (`load`), which
runs the read-only effect, and the explicit user `toggle`. -/
inductive ThemeEvent where
  | load (platformDark : Option Bool)
  | toggle
  deriving DecidableEq

/-- One event of the theme controller.  `load` reruns the mount effect (reads
storage, sets the in-memory theme and the root class, writes nothing);
`toggle` flips the theme, updates the root class, and persists the new value
with `localStorage.setItem('theme', newTheme)`. -/
def themeStep (s : ThemeState) : ThemeEvent → ThemeState
  | ThemeEvent.load pd =>
    let t := resolveInitialTheme s.storage pd
    { s with theme := t, domDark := t == "dark" }
  | ThemeEvent.toggle =>
    let newTheme := if s.theme = "light" then "dark" else "light"
    { theme := newTheme, storage := some newTheme, domDark := newTheme == "dark" }

/-- The `toggleTheme` closure returned by `useTheme`. -/
def toggleTheme (s : ThemeState) : ThemeState :=
  themeStep s ThemeEvent.toggle

/-- The state after a sequence of loads and toggles. -/
def themeRun (s : ThemeState) (es : List ThemeEvent) : ThemeState :=
  es.foldl themeStep s

/-- C2: from any state whose in-memory theme is one of the two enumerated
values and whose persisted entry holds that same value (the shape every state
has once the mount effect has run and a value is persisted), toggling twice
restores both the in-memory theme and the persisted value. -/
theorem theme_toggle_double_restores (s : ThemeState)
    (hdom : s.theme = "light" ∨ s.theme = "dark")
    (hsto : s.storage = some s.theme) :
    (toggleTheme (toggleTheme s)).theme = s.theme ∧
    (toggleTheme (toggleTheme s)).storage = s.storage := by
  rcases hdom with h | h <;>
    simp [toggleTheme, themeStep, h, hsto]

/-- Witness for `theme_toggle_double_restores` at the concrete state with
theme `dark` persisted as `dark`. -/
theorem theme_toggle_double_restores_witness :
    (toggleTheme (toggleTheme (ThemeState.mk "dark" (some "dark") true))).theme =
      (ThemeState.mk "dark" (some "dark") true).theme ∧
    (toggleTheme (toggleTheme (ThemeState.mk "dark" (some "dark") true))).storage =
      (ThemeState.mk "dark" (some "dark") true).storage :=
  theme_toggle_double_restores (ThemeState.mk "dark" (some "dark") true)
    (Or.inr rfl) rfl

/-- C3: on initial load, a persisted theme value is used as the theme;
without a persisted value, a platform dark preference yields `dark`; with no
platform preference signal available the theme defaults to `light`. -/
theorem theme_initial_resolution (saved : String) (pd : Option Bool)
    (h : saved = "light" ∨ saved = "dark") :
    resolveInitialTheme (some saved) pd = saved ∧
    resolveInitialTheme none (some true) = "dark" ∧
    resolveInitialTheme none none = "light" := by
  rcases h with h | h <;> subst h <;> exact ⟨rfl, rfl, rfl⟩

/-- Witness for `theme_initial_resolution` at a persisted `dark` value and a
platform reporting light. -/
theorem theme_initial_resolution_witness :
    resolveInitialTheme (some "dark") (some false) = "dark" ∧
    resolveInitialTheme none (some true) = "dark" ∧
    resolveInitialTheme none none = "light" :=
  theme_initial_resolution "dark" (some false) (Or.inr rfl)

lemma themeStep_storage_cases (s : ThemeState) (e : ThemeEvent) :
    (themeStep s e).storage = s.storage ∨
    (themeStep s e).storage = some "light" ∨
    (themeStep s e).storage = some "dark" := by
  cases e with
  | load pd => exact Or.inl rfl
  | toggle =>
    by_cases h : s.theme = "light" <;> simp [themeStep, h]

lemma themeStep_storage_isSome (s : ThemeState) (e : ThemeEvent)
    (h : s.storage ≠ none) : (themeStep s e).storage ≠ none := by
  cases e with
  | load pd => exact h
  | toggle =>
    by_cases hl : s.theme = "light" <;> simp [themeStep, hl]

lemma themeRun_storage_cases (es : List ThemeEvent) :
    ∀ s : ThemeState,
      (themeRun s es).storage = s.storage ∨
      (themeRun s es).storage = some "light" ∨
      (themeRun s es).storage = some "dark" := by
  induction es with
  | nil => intro s; exact Or.inl rfl
  | cons e rest ih =>
    intro s
    have hr : themeRun s (e :: rest) = themeRun (themeStep s e) rest := rfl
    rw [hr]
    rcases ih (themeStep s e) with h | h | h
    · rw [h]; exact themeStep_storage_cases s e
    · exact Or.inr (Or.inl h)
    · exact Or.inr (Or.inr h)

lemma themeRun_storage_isSome (es : List ThemeEvent) :
    ∀ s : ThemeState, s.storage ≠ none → (themeRun s es).storage ≠ none := by
  induction es with
  | nil => intro s h; exact h
  | cons e rest ih =>
    intro s h
    exact ih (themeStep s e) (themeStep_storage_isSome s e h)

/-- C9: over every sequence of loads and toggles, from any starting state
(storage may hold an arbitrary string): the persisted entry is either still
the untouched initial content or holds one of the two enumerated values (so
every value the code itself persists lies in the light/dark domain); a load
(the mount read) never writes to storage; and the persisted entry is never
destroyed — once present it stays present. -/
theorem theme_persistence_invariant (es : List ThemeEvent) (s : ThemeState) :
    ((themeRun s es).storage = s.storage ∨
      (themeRun s es).storage = some "light" ∨
      (themeRun s es).storage = some "dark") ∧
    (∀ pd, (themeStep s (ThemeEvent.load pd)).storage = s.storage) ∧
    (s.storage ≠ none → (themeRun s es).storage ≠ none) :=
  ⟨themeRun_storage_cases es s, fun _ => rfl, themeRun_storage_isSome es s⟩

/-- Witness for `theme_persistence_invariant` on a concrete trace that loads
with an arbitrary persisted string and then toggles. -/
theorem theme_persistence_invariant_witness :
    ((themeRun (ThemeState.mk "light" (some "banana") false)
        [ThemeEvent.load none, ThemeEvent.toggle]).storage =
          (ThemeState.mk "light" (some "banana") false).storage ∨
      (themeRun (ThemeState.mk "light" (some "banana") false)
        [ThemeEvent.load none, ThemeEvent.toggle]).storage = some "light" ∨
      (themeRun (ThemeState.mk "light" (some "banana") false)
        [ThemeEvent.load none, ThemeEvent.toggle]).storage = some "dark") ∧
    (∀ pd, (themeStep (ThemeState.mk "light" (some "banana") false)
        (ThemeEvent.load pd)).storage =
          (ThemeState.mk "light" (some "banana") false).storage) ∧
    ((ThemeState.mk "light" (some "banana") false).storage ≠ none →
      (themeRun (ThemeState.mk "light" (some "banana") false)
        [ThemeEvent.load none, ThemeEvent.toggle]).storage ≠ none) :=
  theme_persistence_invariant [ThemeEvent.load none, ThemeEvent.toggle]
    (ThemeState.mk "light" (some "banana") false)

/-! ## Header scroll state and mobile navigation (App.tsx lines 149-230) -/

/-- State of the `Header` component: the mobile overlay `isOpen` flag and the
`isScrolled` flag, both `useState(false)`. -/
structure HeaderState where
  isOpen : Bool
  isScrolled : Bool
  deriving DecidableEq, Repr

/-- Mount-time state of `Header`. -/
def headerInit : HeaderState := { isOpen := false, isScrolled := false }

/-- Events acting on the header: a scroll event carrying the recorded
`window.scrollY` offset, a press of the mobile menu button, a click on one of
the overlay navigation links (index into `navItems`), and a click on the
overlay Start Project button. -/
inductive HeaderEvent where
  | scroll (offset : Nat)
  | menuButton
  | overlayNavLink (idx : Nat)
  | overlayCta
  deriving DecidableEq

/-- One header event.  The scroll handler runs
`setIsScrolled(window.scrollY > 10)`; the menu button runs
`setIsOpen(!isOpen)`; every overlay link and the overlay button run
`setIsOpen(false)`. -/
def headerStep (s : HeaderState) : HeaderEvent → HeaderState
  | HeaderEvent.scroll y => { s with isScrolled := decide (y > 10) }
  | HeaderEvent.menuButton => { s with isOpen := !s.isOpen }
  | HeaderEvent.overlayNavLink _ => { s with isOpen := false }
  | HeaderEvent.overlayCta => { s with isOpen := false }

/-- The header state after a sequence of events, starting from mount. -/
def headerRun (es : List HeaderEvent) : HeaderState :=
  es.foldl headerStep headerInit

/-- C7: after any event history, the scrolled flag recorded for the latest
scroll offset is true exactly when that offset exceeds the fixed threshold of
10 pixels. -/
theorem header_scrolled_threshold (es : List HeaderEvent) (y : Nat) :
    (headerRun (es ++ [HeaderEvent.scroll y])).isScrolled = true ↔ y > 10 := by
  unfold headerRun
  rw [List.foldl_append]
  simp [headerStep]

/-- Witness for `header_scrolled_threshold` on both sides of the threshold:
offset 11 sets the flag, offset 10 does not. -/
theorem header_scrolled_threshold_witness :
    (headerRun [HeaderEvent.scroll 11]).isScrolled = true ∧
    ¬ (headerRun [HeaderEvent.scroll 10]).isScrolled = true :=
  ⟨(header_scrolled_threshold [] 11).mpr (by decide),
   fun h => absurd ((header_scrolled_threshold [] 10).mp h) (by decide)⟩

/-- C8: the mobile overlay is a binary flag that starts closed, the single
menu button negates it, and a click on any overlay navigation link or on the
overlay CTA button sets it to closed, from any state. -/
theorem mobile_nav_close (s : HeaderState) (i : Nat) :
    headerInit.isOpen = false ∧
    (headerStep s HeaderEvent.menuButton).isOpen = !s.isOpen ∧
    (headerStep s (HeaderEvent.overlayNavLink i)).isOpen = false ∧
    (headerStep s HeaderEvent.overlayCta).isOpen = false :=
  ⟨rfl, rfl, rfl, rfl⟩

/-- Witness for `mobile_nav_close` at the concrete open state and link
index 0. -/
theorem mobile_nav_close_witness :
    headerInit.isOpen = false ∧
    (headerStep (HeaderState.mk true false) HeaderEvent.menuButton).isOpen =
      !(HeaderState.mk true false).isOpen ∧
    (headerStep (HeaderState.mk true false)
      (HeaderEvent.overlayNavLink 0)).isOpen = false ∧
    (headerStep (HeaderState.mk true false) HeaderEvent.overlayCta).isOpen =
      false :=
  mobile_nav_close (HeaderState.mk true false) 0

/-! ## FAQ accordion

Modelled from the spec: the FAQ section renderer described by the
specification (a single currently-expanded-index selection; clicking an item
sets it as the open one, clicking the open one again closes it) is not
present in src/App.tsx, so its state is embedded from the specification
text. -/

/-- Modelled from the spec: the FAQ expanded-index selection — `none` when no
entry is expanded, `some i` when entry `i` is the single expanded one. -/
def faqClick (openIdx : Option Nat) (i : Nat) : Option Nat :=
  if openIdx = some i then none else some i

/-- Entry `i` is expanded in FAQ state `openIdx`. -/
def faqExpanded (openIdx : Option Nat) (i : Nat) : Prop :=
  openIdx = some i

/-- The FAQ state after a sequence of clicks, starting with no entry
expanded. -/
def faqRun (clicks : List Nat) : Option Nat :=
  clicks.foldl faqClick none

/-- C5: after every click sequence at most one FAQ entry is expanded;
clicking the currently expanded entry collapses it, leaving no entry
expanded; and clicking an entry that is not the expanded one expands exactly
that entry. -/
theorem faq_single_expansion (clicks : List Nat) (st : Option Nat)
    (i j k : Nat) :
    (faqExpanded (faqRun clicks) j → faqExpanded (faqRun clicks) k → j = k) ∧
    faqClick (some i) i = none ∧
    (st ≠ some i →
      faqClick st i = some i ∧
      ∀ m, faqExpanded (faqClick st i) m ↔ m = i) := by
  refine ⟨?_, by simp [faqClick], ?_⟩
  · intro hj hk
    rw [faqExpanded] at hj hk
    rw [hj] at hk
    exact (Option.some.injEq j k ▸ hk).symm ▸ rfl
  · intro h
    constructor
    · simp [faqClick, h]
    · intro m
      simp [faqExpanded, faqClick, h, eq_comm]

/-- Witness for `faq_single_expansion` on the concrete click sequence
`[0, 1]` with a collapse of entry 2 and a click of entry 1 while entry 0 is
open. -/
theorem faq_single_expansion_witness :
    (1 : Nat) = 1 ∧
    faqClick (some 1) 1 = none ∧
    (faqClick (some 0) 1 = some 1 ∧
      ∀ m, faqExpanded (faqClick (some 0) 1) m ↔ m = 1) := by
  have h := faq_single_expansion [0, 1] (some 0) 1 1 1
  exact ⟨h.1 rfl rfl, h.2.1, h.2.2 (by decide)⟩

/-! ## CTA form

Modelled from the spec: the CTA form described by the specification (an
email input and a submitted/not-submitted flag that flips after a fixed
delay on form submission, clearing the input; no real network call) is not
present in the `CTA` component of src/App.tsx, so it is embedded from the
specification text. -/

/-- Modelled from the spec: the CTA form state — the submitted flag, the
email input value, and whether a delayed completion is pending. -/
structure CtaState where
  submitted : Bool
  email : String
  pending : Bool
  deriving DecidableEq, Repr

/-- Modelled from the spec: initial CTA form state. -/
def ctaInit : CtaState := { submitted := false, email := "", pending := false }

/-- Modelled from the spec: submitting the form with a non-empty email
schedules the delayed completion; an empty email does nothing. -/
def ctaSubmit (s : CtaState) : CtaState :=
  if s.email = "" then s else { s with pending := true }

/-- Modelled from the spec: the fixed delay elapsing fires the pending
completion, setting the submitted flag and clearing the input. -/
def ctaDelayElapse (s : CtaState) : CtaState :=
  if s.pending then { submitted := true, email := "", pending := false } else s

/-- C6: submitting the CTA form with a non-empty email from a not-submitted
state leaves it not yet submitted until the fixed delay elapses, after which
the state is submitted and the email input value is cleared. -/
theorem cta_submit_transition (s : CtaState)
    (h1 : s.submitted = false) (h2 : s.email ≠ "") :
    (ctaSubmit s).submitted = false ∧
    (ctaDelayElapse (ctaSubmit s)).submitted = true ∧
    (ctaDelayElapse (ctaSubmit s)).email = "" := by
  simp [ctaSubmit, ctaDelayElapse, h1, h2]

/-- Witness for `cta_submit_transition` at a concrete not-submitted state
holding a non-empty email. -/
theorem cta_submit_transition_witness :
    (ctaSubmit (CtaState.mk false "x@y.z" false)).submitted = false ∧
    (ctaDelayElapse (ctaSubmit (CtaState.mk false "x@y.z" false))).submitted =
      true ∧
    (ctaDelayElapse (ctaSubmit (CtaState.mk false "x@y.z" false))).email = "" :=
  cta_submit_transition (CtaState.mk false "x@y.z" false) rfl (by decide)

/-! ## Services section (App.tsx lines 358-437) -/

/-- The `Service` interface of App.tsx. -/
structure Service where
  title : String
  description : String
  features : List String
  cta : String
  deriving DecidableEq, Repr

/-- The first entry of the literal `services` array. -/
def serviceLeadAcq : Service :=
  { title := "AI Lead Acquisition"
    description := "Autonomous agents that capture, qualify, and nurture leads across all channels instantly."
    features := ["Multi-channel capture", "Instant qualification", "Automated booking"]
    cta := "Scale Acquisition" }

/-- The second entry of the literal `services` array. -/
def serviceWorkflow : Service :=
  { title := "Workflow Automation"
    description := "Connect your entire tech stack. We automate data flow between CRM, Email, and Slack."
    features := ["API Integrations", "Document processing", "Error-free data entry"]
    cta := "Automate Operations" }

/-- The third entry of the literal `services` array. -/
def servicePredictive : Service :=
  { title := "Predictive Intelligence"
    description := "Use AI to predict churn, forecast sales, and identify your highest value prospects."
    features := ["Churn prediction", "Sales forecasting", "Customer scoring"]
    cta := "Get Insights" }

/-- The literal `services` array of the `Services` component. -/
def servicesData : List Service :=
  [serviceLeadAcq, serviceWorkflow, servicePredictive]

/-- The feature list items rendered for one service card:
`service.features.slice(0, 2)` (App.tsx line 415). -/
def renderedFeatures (s : Service) : List String :=
  s.features.take 2

/-- C10: every configured service declares exactly three features, and the
rendered list items are exactly the first two of them — the third feature is
not rendered. -/
theorem services_first_two_features (s : Service) (h : s ∈ servicesData) :
    s.features.length = 3 ∧
    (renderedFeatures s).length = 2 ∧
    renderedFeatures s = [s.features.getD 0 "", s.features.getD 1 ""] ∧
    s.features.getD 2 "" ∉ renderedFeatures s := by
  fin_cases h <;> decide

/-- Witness for `services_first_two_features` at the first configured
service. -/
theorem services_first_two_features_witness :
    serviceLeadAcq.features.length = 3 ∧
    (renderedFeatures serviceLeadAcq).length = 2 ∧
    renderedFeatures serviceLeadAcq =
      [serviceLeadAcq.features.getD 0 "", serviceLeadAcq.features.getD 1 ""] ∧
    serviceLeadAcq.features.getD 2 "" ∉ renderedFeatures serviceLeadAcq :=
  services_first_two_features serviceLeadAcq (by decide)
